import Mathlib

/-!
Verification development for the MicroGL double-entry bookkeeping pipeline.

The Lean definitions below are a shallow embedding of the Python sources:
`bank_account.py`, `chart_of_accounts.py`, `gl_document.py`, `gl_processor.py`,
`bank_files.py`, `database.py` and the constants of `alvaziGL.py`.
Exact decimal amounts are modelled as `ℚ`, machine words as `Nat` reduced
mod 2^32, fallible Python code (raised exceptions) as `Except`.
-/

namespace MicroGL

/-! ## 32-bit words and SHA-256 (model of Python `hashlib.sha256`)

Python's `hashlib.sha256(s.encode()).hexdigest()` is the FIPS 180-4 SHA-256
digest of the UTF-8 encoding of `s`, printed as lowercase hex.  The functions
below implement exactly that, with 32-bit machine words represented as `Nat`
reduced mod 2^32. -/

/-- Truncation to a 32-bit word. -/
def w32 (n : Nat) : Nat := n % 4294967296

/-- Right rotation of a 32-bit word by `b` bits. -/
def rotr32 (b n : Nat) : Nat := w32 ((n >>> b) ||| (n <<< (32 - b)))

/-- Logical right shift of a 32-bit word by `b` bits. -/
def shr32 (b n : Nat) : Nat := n >>> b

/-- Bitwise complement of a 32-bit word. -/
def bnot32 (n : Nat) : Nat := n ^^^ 4294967295

/-- SHA-256 choice function. -/
def shaCh (x y z : Nat) : Nat := (x &&& y) ^^^ (bnot32 x &&& z)

/-- SHA-256 majority function. -/
def shaMaj (x y z : Nat) : Nat := ((x &&& y) ^^^ (x &&& z)) ^^^ (y &&& z)

/-- SHA-256 big sigma 0. -/
def bigSigma0 (x : Nat) : Nat := (rotr32 2 x ^^^ rotr32 13 x) ^^^ rotr32 22 x

/-- SHA-256 big sigma 1. -/
def bigSigma1 (x : Nat) : Nat := (rotr32 6 x ^^^ rotr32 11 x) ^^^ rotr32 25 x

/-- SHA-256 small sigma 0. -/
def smallSigma0 (x : Nat) : Nat := (rotr32 7 x ^^^ rotr32 18 x) ^^^ shr32 3 x

/-- SHA-256 small sigma 1. -/
def smallSigma1 (x : Nat) : Nat := (rotr32 17 x ^^^ rotr32 19 x) ^^^ shr32 10 x

/-- The 64 SHA-256 round constants (FIPS 180-4 §4.2.2). -/
def shaK : List Nat :=
  [1116352408, 1899447441, 3049323471, 3921009573, 961987163, 1508970993,
   2453635748, 2870763221, 3624381080, 310598401, 607225278, 1426881987,
   1925078388, 2162078206, 2614888103, 3248222580, 3835390401, 4022224774,
   264347078, 604807628, 770255983, 1249150122, 1555081692, 1996064986,
   2554220882, 2821834349, 2952996808, 3210313671, 3336571891, 3584528711,
   113926993, 338241895, 666307205, 773529912, 1294757372, 1396182291,
   1695183700, 1986661051, 2177026350, 2456956037, 2730485921, 2820302411,
   3259730800, 3345764771, 3516065817, 3600352804, 4094571909, 275423344,
   430227734, 506948616, 659060556, 883997877, 958139571, 1322822218,
   1537002063, 1747873779, 1955562222, 2024104815, 2227730452, 2361852424,
   2428436474, 2756734187, 3204031479, 3329325298]
/-- The initial SHA-256 hash state (FIPS 180-4 §5.3.3). -/
def shaH0 : List Nat :=
  [1779033703, 3144134277, 1013904242, 2773480762,
   1359893119, 2600822924, 528734635, 1541459225]
/-- One extension step of the SHA-256 message schedule: append word
`σ1(w[t-2]) + w[t-7] + σ0(w[t-15]) + w[t-16]` to the current schedule. -/
def scheduleStep (w : List Nat) : List Nat :=
  w ++ [w32 (smallSigma1 (w.getD (w.length - 2) 0) + w.getD (w.length - 7) 0 +
             smallSigma0 (w.getD (w.length - 15) 0) + w.getD (w.length - 16) 0)]

/-- Extend a 16-word block to the full 64-word message schedule. -/
def fullSchedule (block : List Nat) : List Nat := scheduleStep^[48] block

/-- One SHA-256 compression round on the 8-word working state. -/
def compressRound (st : List Nat) (kw : Nat × Nat) : List Nat :=
  match st with
  | [a, b, c, d, e, f, g, h] =>
    let t1 := w32 (h + bigSigma1 e + shaCh e f g + kw.1 + kw.2)
    let t2 := w32 (bigSigma0 a + shaMaj a b c)
    [w32 (t1 + t2), a, b, c, w32 (d + t1), e, f, g]
  | st => st

/-- Compress one 16-word message block into the 8-word hash state. -/
def compressBlock (h : List Nat) (block : List Nat) : List Nat :=
  let st := (shaK.zip (fullSchedule block)).foldl compressRound h
  (h.zip st).map (fun p => w32 (p.1 + p.2))

/-- Big-endian bytes of a number, `count` bytes wide. -/
def natToBytesBE (count n : Nat) : List Nat :=
  (List.range count).map (fun i => (n >>> (8 * (count - 1 - i))) % 256)

/-- Group a byte list into big-endian 32-bit words (length assumed divisible by 4). -/
def bytesToWords : List Nat → List Nat
  | b0 :: b1 :: b2 :: b3 :: rest => (((b0 * 256 + b1) * 256 + b2) * 256 + b3) :: bytesToWords rest
  | _ => []

/-- Split a word list into 16-word blocks. -/
def chunk16 : List Nat → List (List Nat)
  | [] => []
  | w :: ws => ((w :: ws).take 16) :: chunk16 ((w :: ws).drop 16)
termination_by ws => ws.length
decreasing_by simp [List.length_drop]; omega

/-- SHA-256 padding: append `0x80`, zero bytes up to 56 mod 64, then the
original bit length as 8 big-endian bytes (FIPS 180-4 §5.1.1). -/
def sha256Pad (msg : List Nat) : List Nat :=
  let L := msg.length
  let k := (119 - (L % 64)) % 64
  msg ++ [128] ++ List.replicate k 0 ++ natToBytesBE 8 (L * 8)

/-- The SHA-256 digest of a byte sequence, as 32 bytes. -/
def sha256Bytes (msg : List Nat) : List Nat :=
  let blocks := chunk16 (bytesToWords (sha256Pad msg))
  ((blocks.foldl compressBlock shaH0).map (natToBytesBE 4)).flatten

/-- UTF-8 encoding of one Unicode code point (what Python `str.encode()` does
per character). -/
def utf8EncodeChar (n : Nat) : List Nat :=
  if n < 128 then [n]
  else if n < 2048 then [192 + n / 64, 128 + n % 64]
  else if n < 65536 then [224 + n / 4096, 128 + (n / 64) % 64, 128 + n % 64]
  else [240 + n / 262144, 128 + (n / 4096) % 64, 128 + (n / 64) % 64, 128 + n % 64]

/-- UTF-8 bytes of a string (model of Python `str.encode()`). -/
def strToBytes (s : String) : List Nat :=
  (s.data.map (fun c => utf8EncodeChar c.toNat)).flatten

/-- Lowercase hex digit for a value below 16. -/
def hexDigit (n : Nat) : Char := if n < 10 then Char.ofNat (48 + n) else Char.ofNat (87 + n)

/-- Two lowercase hex digits of one byte. -/
def byteToHex (b : Nat) : List Char := [hexDigit (b / 16), hexDigit (b % 16)]

/-- Lowercase hex string of a byte sequence (model of `.hexdigest()`). -/
def bytesToHex (bs : List Nat) : String := String.mk ((bs.map byteToHex).flatten)

/-- Model of Python `hashlib.sha256(s.encode()).hexdigest()`. -/
def sha256Hex (s : String) : String := bytesToHex (sha256Bytes (strToBytes s))

/-! ## Substring containment (model of Python `needle in haystack`) -/

/-- Whether `n` is a prefix of `h`, on character lists. -/
def listPrefixTest : List Char → List Char → Bool
  | [], _ => true
  | _ :: _, [] => false
  | a :: as, b :: bs => a == b && listPrefixTest as bs

/-- Whether `n` occurs as a contiguous run inside `h`, on character lists. -/
def listInfixTest (n : List Char) : List Char → Bool
  | [] => n.isEmpty
  | c :: cs => listPrefixTest n (c :: cs) || listInfixTest n cs

/-- Model of Python `needle in haystack` on strings: case-sensitive
contiguous-substring containment. -/
def strContainsSub (haystack needle : String) : Bool :=
  listInfixTest needle.data haystack.data

/-! ## Configuration constants

The running configuration file `Configuration/constants.json` is not among the
sources; the values below are the repository's own constant definitions in
`alvaziGL.py` lines 16-17:
`BANK_TRANSACTION_CATEGORIES = {"Deposit": "D", "Withdrawal": "C"}` and
`DC_INDICATORS = {"Debit": "D", "Credit": "C"}`. -/

/-- The `dcIndicators` constants table: debit/credit posting indicator codes. -/
structure DcIndicators where
  debit : String
  credit : String
deriving DecidableEq, Repr

/-- The `bankTransactionCategories` constants table: deposit/withdrawal codes. -/
structure BankTransactionCategories where
  deposit : String
  withdrawal : String
deriving DecidableEq, Repr

/-- The `bankAccountTypes` constants table: debit/credit account type codes. -/
structure BankAccountTypes where
  debit : String
  credit : String
deriving DecidableEq, Repr

/-- The constants object loaded by `Constants('Configuration/constants.json')`,
restricted to the keys the core logic reads. -/
structure Constants where
  bankAccountTypes : BankAccountTypes
  bankTransactionCategories : BankTransactionCategories
  dcIndicators : DcIndicators
deriving DecidableEq, Repr

/-- Modelled from the spec: the configuration file itself is not in the
sources.  Category and debit/credit codes are the repository's own constants
(`alvaziGL.py` lines 16-17); the bank-account-type codes, which the code only
ever compares for equality, follow the spec's Debit/Credit vocabulary. -/
def defaultConstants : Constants :=
  { bankAccountTypes := { debit := "Debit", credit := "Credit" }
    bankTransactionCategories := { deposit := "D", withdrawal := "C" }
    dcIndicators := { debit := "D", credit := "C" } }

/-! ## Data model (`bank_account.py`, `chart_of_accounts.py`, `gl_item.py`) -/

/-- One entry of an account's ordered `glMapping` rule list. -/
structure GlMapping where
  searchString : String
  glAccount : String
  bp : String
deriving DecidableEq, Repr

/-- The `missingGlMappingDefault` fallback block of a bank account's properties. -/
structure MissingGlMappingDefault where
  glAccountRevenue : String
  glAccountExpense : String
  unknownBp : String
deriving DecidableEq, Repr

/-- The properties record of one bank account (the fields the core logic
reads; the CSV-layout fields feed only the external parser). -/
structure BankAccountProps where
  bankAccountCode : String
  bankAccountType : String
  currencyUnit : String
  balanceSheetAccount : String
  glMapping : List GlMapping
  missingGlMappingDefault : MissingGlMappingDefault
deriving DecidableEq, Repr

/-- Properties of one chart-of-accounts entry. -/
structure ChartAccountProps where
  accountType : String
  isTaxable : Bool
deriving DecidableEq, Repr

/-- The chart of accounts: the dict built by
`ChartOfAccounts._read_chart_of_accounts`, keyed by account id. -/
abbrev ChartOfAccounts := List (String × ChartAccountProps)

/-- Model of `ChartOfAccounts.get_account_properties`:
`self.accounts.get(account_id, {})`.  `none` models the empty dict returned
for an id absent from the chart. -/
def get_account_properties (chart : ChartOfAccounts) (account_id : String) :
    Option ChartAccountProps :=
  (chart.find? (fun e => e.1 == account_id)).map (fun e => e.2)

/-- Model of `BankAccount.get_gl_mapping_for_search_string`: scan the
account's `glMapping` rules in order and return the first whose
`searchString` is contained in the description; if none matches, fall back to
the revenue default when the category equals the literal `"D"` and to the
expense default otherwise, with the `unknownBp` business partner. -/
def get_gl_mapping_for_search_string (props : BankAccountProps)
    (search_string : String) (bank_transaction_category : String) : GlMapping :=
  match props.glMapping.find? (fun m => strContainsSub search_string m.searchString) with
  | some gl_mapping => gl_mapping
  | none =>
    if bank_transaction_category == "D" then
      { searchString := search_string
        glAccount := props.missingGlMappingDefault.glAccountRevenue
        bp := props.missingGlMappingDefault.unknownBp }
    else
      { searchString := search_string
        glAccount := props.missingGlMappingDefault.glAccountExpense
        bp := props.missingGlMappingDefault.unknownBp }

/-- One normalized bank transaction record, as handed to `GLDocument`.
`dateStr` and `amountStr` carry the Python display strings of the
`Date` timestamp and the `Amount` decimal (what an f-string interpolates);
`amount` is the exact decimal value; `dateYear`/`dateMonth` are
`Date.year`/`Date.month`. -/
structure BankTransactionRecord where
  dateStr : String
  dateYear : Int
  dateMonth : Nat
  amount : ℚ
  amountStr : String
  description : String
  investment : Option String
  symbol : Option String
  checkNo : Option String
deriving DecidableEq, Repr

/-- The `GLItem` posting record of `gl_item.py`.  The two fields
`bank_csv_file` and `bank_csv_row_index` are keyword arguments that
`gl_document.py` passes and mirrors into the offsetting item although the
`gl_item.py` dataclass snapshot omits them; they are kept here so the
construction can be embedded as written. -/
structure GLItem where
  transaction_id : String
  transaction_item_id : String
  bank_csv_file : String
  bank_csv_row_index : String
  transaction_date : String
  posting_year : Int
  posting_period : Nat
  transaction_amount : ℚ
  currency_unit : String
  debit_credit_indicator : String
  transaction_description : String
  account_id : String
  business_partner : String
  bank_account_code : String
  investment_name : Option String
  investment_symbol : Option String
  check_no : Option String
  account_type : String
  is_taxable : Bool
deriving DecidableEq, Repr

/-! ## GLDocument construction (`gl_document.py`) -/

/-- Python exceptions the embedded code can raise: `ValueError` (unmapped GL
account, caught by the ingestion loop), `KeyError` (subscripting the empty
dict of a missing chart entry) and `AssertionError` (the zero-sum assert). -/
inductive PyError where
  | valueError
  | keyError
  | assertionError
deriving DecidableEq, Repr

/-- Model of Python `abs` on exact decimals. -/
def pyAbs (q : ℚ) : ℚ := if q < 0 then -q else q

/-- Model of `GLDocument._determine_bank_transaction_category`. -/
def determine_bank_transaction_category (c : Constants) (props : BankAccountProps)
    (record : BankTransactionRecord) : String :=
  if props.bankAccountType == c.bankAccountTypes.debit then
    if 0 ≤ record.amount then c.bankTransactionCategories.deposit
    else c.bankTransactionCategories.withdrawal
  else
    if 0 ≤ record.amount then c.bankTransactionCategories.withdrawal
    else c.bankTransactionCategories.deposit

/-- The string hashed by `GLDocument._assign_transaction_id`.  The f-string in
the source continues over a backslash-newline, so the sixteen spaces of the
continuation line's indentation are part of the hashed text, between the
amount and the description. -/
def glDocHashInput (props : BankAccountProps) (record : BankTransactionRecord) : String :=
  record.dateStr ++ record.amountStr ++ "                " ++ record.description
    ++ props.bankAccountCode

/-- Model of `GLDocument._assign_transaction_id`: the SHA-256 hex digest of
`glDocHashInput`, with no duplicate-disambiguation ordinal. -/
def assign_transaction_id (props : BankAccountProps) (record : BankTransactionRecord) : String :=
  sha256Hex (glDocHashInput props record)

/-- Model of `GLDocument._add_gl_item`: build the primary posting leg.
Raises `ValueError` when the resolved GL account has no chart entry
(`if not account_properties`). -/
def add_gl_item (c : Constants) (chart : ChartOfAccounts) (props : BankAccountProps)
    (record : BankTransactionRecord) (transaction_id : String)
    (bank_transaction_category : String) : Except PyError GLItem :=
  let gl_mapping := get_gl_mapping_for_search_string props record.description
      bank_transaction_category
  let debit_credit_indicator :=
    if bank_transaction_category == c.bankTransactionCategories.deposit then
      c.dcIndicators.credit
    else c.dcIndicators.debit
  match get_account_properties chart gl_mapping.glAccount with
  | none => .error .valueError
  | some account_properties =>
    let transaction_amount :=
      if debit_credit_indicator == c.dcIndicators.debit then pyAbs record.amount
      else -(pyAbs record.amount)
    .ok { transaction_id := transaction_id
          transaction_item_id := "001"
          bank_csv_file := ""
          bank_csv_row_index := ""
          transaction_date := record.dateStr
          posting_year := record.dateYear
          posting_period := record.dateMonth
          transaction_amount := transaction_amount
          currency_unit := props.currencyUnit
          debit_credit_indicator := debit_credit_indicator
          transaction_description := record.description
          account_id := gl_mapping.glAccount
          business_partner := gl_mapping.bp
          bank_account_code := props.bankAccountCode
          investment_name := record.investment
          investment_symbol := record.symbol
          check_no := record.checkNo
          account_type := account_properties.accountType
          is_taxable := account_properties.isTaxable }

/-- Model of `GLDocument._add_offsetting_gl_item`: mirror the primary leg,
negate the amount, flip the literal `"D"`/`"C"` indicator, and post to the
account's `balanceSheetAccount`.  A balance-sheet account absent from the
chart gives the empty dict, whose `["accountType"]` subscript raises
`KeyError`. -/
def add_offsetting_gl_item (chart : ChartOfAccounts) (props : BankAccountProps)
    (primary : GLItem) : Except PyError GLItem :=
  let offsetting_transaction_amount := -primary.transaction_amount
  let offsetting_debit_credit_indicator :=
    if primary.debit_credit_indicator == "D" then "C" else "D"
  let offsetting_account_id := props.balanceSheetAccount
  match get_account_properties chart offsetting_account_id with
  | none => .error .keyError
  | some account_properties =>
    .ok { primary with
          transaction_item_id := "002"
          transaction_amount := offsetting_transaction_amount
          debit_credit_indicator := offsetting_debit_credit_indicator
          account_id := offsetting_account_id
          account_type := account_properties.accountType
          is_taxable := account_properties.isTaxable }

/-- A constructed GL document: the transaction id, the determined category and
the posting items, in insertion order. -/
structure GLDocument where
  transaction_id : String
  bank_transaction_category : String
  items : List GLItem
deriving DecidableEq, Repr

/-- Model of `GLDocument.__init__`: determine the category, assign the
transaction id, then build the primary and the offsetting leg.  A raised
exception aborts construction. -/
def GLDocument.make (c : Constants) (chart : ChartOfAccounts) (props : BankAccountProps)
    (record : BankTransactionRecord) : Except PyError GLDocument :=
  let bank_transaction_category := determine_bank_transaction_category c props record
  let transaction_id := assign_transaction_id props record
  match add_gl_item c chart props record transaction_id bank_transaction_category with
  | .error e => .error e
  | .ok primary =>
    match add_offsetting_gl_item chart props primary with
    | .error e => .error e
    | .ok offsetting =>
      .ok { transaction_id := transaction_id
            bank_transaction_category := bank_transaction_category
            items := [primary, offsetting] }

/-! ## Ledger store and ingestion loop (`database.py`, `gl_processor.py`) -/

/-- The `gl_items` table: its rows in insertion order. -/
abbrev GlItemsTable := List GLItem

/-- The `SELECT COUNT(*) FROM gl_items WHERE transaction_id = ?` count. -/
def count_transaction_id (db : GlItemsTable) (tid : String) : Nat :=
  db.countP (fun item => item.transaction_id == tid)

/-- Model of `GLDocument._gl_items_exist`: whether any stored row carries the
document's transaction id (`count > 0`). -/
def gl_items_exist (db : GlItemsTable) (doc : GLDocument) : Bool :=
  decide (0 < count_transaction_id db doc.transaction_id)

/-- Model of `GLDocument.insert_gl_items_into_db`: assert that the items sum
to zero (an `AssertionError` is raised before anything is inserted), then
insert every item. -/
def insert_gl_items_into_db (doc : GLDocument) (db : GlItemsTable) :
    Except PyError GlItemsTable :=
  let total_amount := (doc.items.map (fun item => item.transaction_amount)).sum
  if total_amount = 0 then .ok (db ++ doc.items) else .error .assertionError

/-- One iteration of the loop body of
`GLProcessor._record_bank_file_transactions_in_GL`: construct the document —
a `ValueError` is caught, logged and skipped; any other exception propagates —
then insert its items unless rows with its transaction id already exist. -/
def record_step (c : Constants) (chart : ChartOfAccounts) (props : BankAccountProps)
    (db : GlItemsTable) (record : BankTransactionRecord) : Except PyError GlItemsTable :=
  match GLDocument.make c chart props record with
  | .error .valueError => .ok db
  | .error e => .error e
  | .ok gl_document =>
    if gl_items_exist db gl_document then .ok db
    else insert_gl_items_into_db gl_document db

/-- Model of `GLProcessor._record_bank_file_transactions_in_GL`: run
`record_step` over the file's records in order. -/
def record_bank_file_transactions_in_GL (c : Constants) (chart : ChartOfAccounts)
    (props : BankAccountProps) :
    List BankTransactionRecord → GlItemsTable → Except PyError GlItemsTable
  | [], db => .ok db
  | record :: rest, db =>
    match record_step c chart props db record with
    | .ok db2 => record_bank_file_transactions_in_GL c chart props rest db2
    | .error e => .error e

/-! ## Batch transaction identities (`bank_files.py`) -/

/-- One row of a parsed bank file, as `BankFileTransactions._set_transaction_id`
reads it: the display strings of `Date`, `Amount` and the `Description`. -/
structure BankFileRow where
  dateStr : String
  amountStr : String
  description : String
deriving DecidableEq, Repr

/-- The string hashed per row by `BankFileTransactions._set_transaction_id`:
`f"{row['Date']}{row['Amount']}{row['Description']}{self.bank_account_code}"`. -/
def row_hash_input (bank_account_code : String) (row : BankFileRow) : String :=
  row.dateStr ++ row.amountStr ++ row.description ++ bank_account_code

/-- The suffixing pass of `_set_transaction_id`: `sub_no` of a row is
`groupby('TransactionID').cumcount() + 1`, i.e. one plus the number of earlier
rows with the same digest, and every `TransactionID` becomes
`<digest>_<sub_no>`.  `seen` accumulates the digests of the earlier rows. -/
def append_sub_numbers : List String → List String → List String
  | _, [] => []
  | seen, d :: rest =>
    (d ++ "_" ++ toString (seen.count d + 1)) :: append_sub_numbers (d :: seen) rest

/-- Model of `BankFileTransactions._set_transaction_id`: hash every row, then
combine each digest with its per-digest ordinal. -/
def set_transaction_id (bank_account_code : String) (rows : List BankFileRow) : List String :=
  append_sub_numbers []
    (rows.map (fun row => sha256Hex (row_hash_input bank_account_code row)))

/-! ## Decimal storage adapters (`database.py`) -/

/-- Decimal digit character of a value below 10. -/
def decimalDigitChar (d : Nat) : Char := Char.ofNat (48 + d)

/-- Little-endian decimal digits of `n`, with explicit fuel (the fuel `n`
itself always suffices). -/
def natDigitsRevGo : Nat → Nat → List Nat
  | 0, _ => []
  | fuel + 1, n => if n = 0 then [] else n % 10 :: natDigitsRevGo fuel (n / 10)

/-- Little-endian decimal digits of `n` (empty for 0). -/
def natDigitsRev (n : Nat) : List Nat := natDigitsRevGo n n

/-- Decimal text of a natural number, as Python `str` renders it. -/
def natRepr (n : Nat) : String :=
  if n = 0 then "0" else String.mk (((natDigitsRev n).reverse).map decimalDigitChar)

/-- Decimal text of an integer, as Python `str` renders it: an optional minus
sign followed by the digits.  This is the text SQLite hands back to
`convert_decimal` for a stored integer. -/
def intRepr (i : Int) : String :=
  if i < 0 then "-" ++ natRepr i.natAbs else natRepr i.natAbs

/-- Model of `adapt_decimal`: `int(d * 100)`.  Python `int()` truncates an
exact decimal toward zero, which on a rational is `num.tdiv den`. -/
def adapt_decimal (d : ℚ) : Int :=
  Int.tdiv (d * 100).num ((d * 100).den : Int)

/-- Numeric value of decimal digit text (big-endian fold). -/
def parseNatDigits (l : List Char) : Nat :=
  l.foldl (fun acc c => 10 * acc + (c.toNat - 48)) 0

/-- Value of integer decimal text: Python `Decimal(text)` on the text of a
stored integer. -/
def parseIntText (s : String) : Int :=
  match s.data with
  | [] => 0
  | c :: rest =>
    if c == '-' then -(parseNatDigits rest : Int) else (parseNatDigits s.data : Int)

/-- Model of `convert_decimal`: `Decimal(i.decode('utf-8')) / 100`, where the
bytes are the stored integer's decimal text (`decode` is the identity on that
ASCII text). -/
def convert_decimal (s : String) : ℚ := ((parseIntText s : ℚ)) / 100

/-! ## Structural lemmas about document construction -/

/-- Successful construction yields exactly the primary and the offsetting leg,
with mirrored transaction id, negated amount and the literal `"D"`/`"C"` flip
on the indicator. -/
lemma make_ok_items {c : Constants} {chart : ChartOfAccounts} {props : BankAccountProps}
    {record : BankTransactionRecord} {doc : GLDocument}
    (h : GLDocument.make c chart props record = .ok doc) :
    ∃ p o, doc.items = [p, o] ∧
      p.transaction_id = doc.transaction_id ∧
      o.transaction_id = doc.transaction_id ∧
      o.transaction_amount = -p.transaction_amount ∧
      o.debit_credit_indicator = (if p.debit_credit_indicator == "D" then "C" else "D") ∧
      (p.debit_credit_indicator = c.dcIndicators.credit ∨
        p.debit_credit_indicator = c.dcIndicators.debit) ∧
      o.account_id = props.balanceSheetAccount ∧
      doc.transaction_id = assign_transaction_id props record := by
  simp only [GLDocument.make, add_gl_item, add_offsetting_gl_item] at h
  cases hap : get_account_properties chart
      (get_gl_mapping_for_search_string props record.description
        (determine_bank_transaction_category c props record)).glAccount with
  | none => rw [hap] at h; exact absurd h (by simp)
  | some ap =>
    rw [hap] at h
    cases hap2 : get_account_properties chart props.balanceSheetAccount with
    | none => rw [hap2] at h; exact absurd h (by simp)
    | some ap2 =>
      rw [hap2] at h
      injection h with h
      subst h
      refine ⟨_, _, rfl, rfl, rfl, rfl, rfl, ?_, rfl, rfl⟩
      by_cases hcat :
          (determine_bank_transaction_category c props record ==
            c.bankTransactionCategories.deposit) = true
      · left; simp only [hcat, if_true]
      · right; simp only [hcat, if_false]; rfl

/-- The items of a successfully constructed document sum to zero. -/
lemma make_ok_sum_zero {c : Constants} {chart : ChartOfAccounts} {props : BankAccountProps}
    {record : BankTransactionRecord} {doc : GLDocument}
    (h : GLDocument.make c chart props record = .ok doc) :
    (doc.items.map (fun item => item.transaction_amount)).sum = 0 := by
  obtain ⟨p, o, hitems, -, -, hneg, -⟩ := make_ok_items h
  simp [hitems, hneg]

/-- Ordered scan: when every rule before `m` fails the containment test and
`m` passes it, the scan returns `m`. -/
lemma find?_first_true {α} (p : α → Bool) :
    ∀ (l1 : List α) (m : α) (l2 : List α), (∀ x ∈ l1, p x = false) → p m = true →
      List.find? p (l1 ++ m :: l2) = some m
  | [], m, l2, _, hm => by simp [List.find?, hm]
  | a :: l1, m, l2, h1, hm => by
    have ha : p a = false := h1 a (by simp)
    simpa [List.find?, ha] using find?_first_true p l1 m l2 (fun x hx => h1 x (by simp [hx])) hm

/-! ## Concrete fixtures used by witnesses and examples -/

/-- A Debit-type checking account with one mapping rule and the default
fallback block. -/
def chkAccount : BankAccountProps :=
  { bankAccountCode := "CHK"
    bankAccountType := "Debit"
    currencyUnit := "USD"
    balanceSheetAccount := "1000"
    glMapping := [{ searchString := "COFFEE", glAccount := "6100", bp := "CAFE" }]
    missingGlMappingDefault :=
      { glAccountRevenue := "4000", glAccountExpense := "6000", unknownBp := "UNKNOWN" } }

/-- A Credit-type card account. -/
def cardAccount : BankAccountProps :=
  { chkAccount with
    bankAccountCode := "CARD"
    bankAccountType := "Credit"
    balanceSheetAccount := "2000" }

/-- An account with two ordered rules whose first search string is a substring
of the second. -/
def abAccount : BankAccountProps :=
  { chkAccount with
    glMapping := [{ searchString := "FOO", glAccount := "5100", bp := "BPA" },
                  { searchString := "FOOBAR", glAccount := "5200", bp := "BPB" }] }

/-- A chart of accounts covering the fixtures' accounts. -/
def chartW : ChartOfAccounts :=
  [("1000", { accountType := "ASSET", isTaxable := false }),
   ("4000", { accountType := "REVENUE", isTaxable := true }),
   ("6000", { accountType := "EXPENSE", isTaxable := false }),
   ("6100", { accountType := "EXPENSE", isTaxable := false })]

/-- A record for -42.50 whose description matches no rule of `chkAccount`. -/
def recNoMatch : BankTransactionRecord :=
  { dateStr := "2024-03-01 00:00:00"
    dateYear := 2024
    dateMonth := 3
    amount := -85/2
    amountStr := "-42.50"
    description := "RENT PAYMENT"
    investment := none
    symbol := none
    checkNo := none }

/-- A zero-amount record (the boundary case of the category rule). -/
def recZero : BankTransactionRecord :=
  { recNoMatch with amount := 0, amountStr := "0.00", description := "ZERO EVENT" }

/-- The document `GLDocument.make` builds from `recNoMatch` on `chkAccount`:
primary leg `"D"` for +42.50 to the fallback expense account, offsetting leg
`"C"` for -42.50 to the balance-sheet account. -/
def docW : GLDocument :=
  { transaction_id := assign_transaction_id chkAccount recNoMatch
    bank_transaction_category := "C"
    items :=
      [{ transaction_id := assign_transaction_id chkAccount recNoMatch
         transaction_item_id := "001"
         bank_csv_file := ""
         bank_csv_row_index := ""
         transaction_date := "2024-03-01 00:00:00"
         posting_year := 2024
         posting_period := 3
         transaction_amount := 85/2
         currency_unit := "USD"
         debit_credit_indicator := "D"
         transaction_description := "RENT PAYMENT"
         account_id := "6000"
         business_partner := "UNKNOWN"
         bank_account_code := "CHK"
         investment_name := none
         investment_symbol := none
         check_no := none
         account_type := "EXPENSE"
         is_taxable := false },
       { transaction_id := assign_transaction_id chkAccount recNoMatch
         transaction_item_id := "002"
         bank_csv_file := ""
         bank_csv_row_index := ""
         transaction_date := "2024-03-01 00:00:00"
         posting_year := 2024
         posting_period := 3
         transaction_amount := -(85/2)
         currency_unit := "USD"
         debit_credit_indicator := "C"
         transaction_description := "RENT PAYMENT"
         account_id := "1000"
         business_partner := "UNKNOWN"
         bank_account_code := "CHK"
         investment_name := none
         investment_symbol := none
         check_no := none
         account_type := "ASSET"
         is_taxable := false }] }

/-- Construction of `docW` from the fixtures, evaluated. -/
lemma make_docW : GLDocument.make defaultConstants chartW chkAccount recNoMatch = .ok docW := by
  have hcat : determine_bank_transaction_category defaultConstants chkAccount recNoMatch = "C" := by
    unfold determine_bank_transaction_category
    norm_num [chkAccount, recNoMatch, defaultConstants]
  have hmap : get_gl_mapping_for_search_string chkAccount recNoMatch.description "C" =
      { searchString := "RENT PAYMENT", glAccount := "6000", bp := "UNKNOWN" } := by decide
  have h6000 : get_account_properties chartW "6000" =
      some { accountType := "EXPENSE", isTaxable := false } := by decide
  have h1000 : get_account_properties chartW chkAccount.balanceSheetAccount =
      some { accountType := "ASSET", isTaxable := false } := by decide
  have habs : pyAbs (-(85/2) : ℚ) = 85/2 := by
    unfold pyAbs
    norm_num
  simp only [GLDocument.make, add_gl_item, add_offsetting_gl_item, hcat, hmap, h6000, h1000]
  norm_num [docW, chkAccount, recNoMatch, defaultConstants, habs]

/-- A deliberately unbalanced document (single leg of +1). -/
def badDocW : GLDocument :=
  { transaction_id := "unbalanced"
    bank_transaction_category := "C"
    items :=
      [{ transaction_id := "unbalanced"
         transaction_item_id := "001"
         bank_csv_file := ""
         bank_csv_row_index := ""
         transaction_date := "2024-03-01 00:00:00"
         posting_year := 2024
         posting_period := 3
         transaction_amount := 1
         currency_unit := "USD"
         debit_credit_indicator := "D"
         transaction_description := "BAD"
         account_id := "6000"
         business_partner := "UNKNOWN"
         bank_account_code := "CHK"
         investment_name := none
         investment_symbol := none
         check_no := none
         account_type := "EXPENSE"
         is_taxable := false }] }

/-! ## Claims -/

/-- C1: for every transaction record whose `GLDocument` construction succeeds,
the document has exactly two GL items, their `transaction_amount` values sum
to exactly zero, and their debit/credit indicators are opposite (one `"D"`,
one `"C"`); a balanced document is inserted verbatim, and a zero-sum
violation makes `insert_gl_items_into_db` raise `AssertionError` with nothing
inserted, never a silent correction. -/
theorem C1_balanced_posting_pair (c : Constants) (chart : ChartOfAccounts)
    (props : BankAccountProps) (record : BankTransactionRecord) (doc : GLDocument)
    (hD : c.dcIndicators.debit = "D") (hC : c.dcIndicators.credit = "C")
    (hmk : GLDocument.make c chart props record = .ok doc) :
    doc.items.length = 2 ∧
    (doc.items.map (fun item => item.transaction_amount)).sum = 0 ∧
    (doc.items.map (fun item => item.debit_credit_indicator) = ["D", "C"] ∨
      doc.items.map (fun item => item.debit_credit_indicator) = ["C", "D"]) ∧
    (∀ db, insert_gl_items_into_db doc db = .ok (db ++ doc.items)) ∧
    (∀ (doc2 : GLDocument) (db : GlItemsTable),
      (doc2.items.map (fun item => item.transaction_amount)).sum ≠ 0 →
      insert_gl_items_into_db doc2 db = .error .assertionError) := by
  obtain ⟨p, o, hitems, -, -, hneg, hflip, hdc, -, -⟩ := make_ok_items hmk
  have hsum := make_ok_sum_zero hmk
  refine ⟨by simp [hitems], hsum, ?_, ?_, ?_⟩
  · rcases hdc with h | h
    · rw [hC] at h
      right
      simp [hitems, hflip, h]
    · rw [hD] at h
      left
      simp [hitems, hflip, h]
  · intro db
    simp [insert_gl_items_into_db, hsum]
  · intro doc2 db hne
    simp [insert_gl_items_into_db, hne]

/-- C1 witness: the theorem applied to a concrete Debit-account record, and
the assertion conjunct exercised on a concrete unbalanced document. -/
theorem C1_balanced_posting_pair_witness :
    docW.items.length = 2 ∧
    (docW.items.map (fun item => item.transaction_amount)).sum = 0 ∧
    insert_gl_items_into_db badDocW [] = .error .assertionError := by
  have h := C1_balanced_posting_pair defaultConstants chartW chkAccount recNoMatch docW
    rfl rfl make_docW
  exact ⟨h.1, h.2.1, h.2.2.2.2 badDocW [] (by norm_num [badDocW])⟩

/-- C4: classification by account type and sign — on a Debit-type account a
non-negative amount (zero included) is a Deposit and a negative amount a
Withdrawal; on a Credit-type account the polarity is inverted. -/
theorem C4_transaction_category (c : Constants) (props : BankAccountProps)
    (record : BankTransactionRecord) :
    (props.bankAccountType = c.bankAccountTypes.debit →
      (0 ≤ record.amount →
        determine_bank_transaction_category c props record =
          c.bankTransactionCategories.deposit) ∧
      (record.amount < 0 →
        determine_bank_transaction_category c props record =
          c.bankTransactionCategories.withdrawal)) ∧
    (props.bankAccountType = c.bankAccountTypes.credit →
      props.bankAccountType ≠ c.bankAccountTypes.debit →
      (0 ≤ record.amount →
        determine_bank_transaction_category c props record =
          c.bankTransactionCategories.withdrawal) ∧
      (record.amount < 0 →
        determine_bank_transaction_category c props record =
          c.bankTransactionCategories.deposit)) := by
  unfold determine_bank_transaction_category
  constructor
  · intro hdeb
    constructor <;> intro ha
    · simp [hdeb, ha]
    · simp [hdeb, not_le.mpr ha]
  · intro hcred hne
    have hb : (props.bankAccountType == c.bankAccountTypes.debit) = false := by
      simp [hne]
    constructor <;> intro ha
    · simp [hb, ha]
    · simp [hb, not_le.mpr ha]

/-- C4 witness: a zero amount is a Deposit (`"D"`) on the Debit-type account
and a Withdrawal (`"C"`) on the Credit-type account. -/
theorem C4_transaction_category_witness :
    determine_bank_transaction_category defaultConstants chkAccount recZero = "D" ∧
    determine_bank_transaction_category defaultConstants cardAccount recZero = "C" := by
  have h1 := (C4_transaction_category defaultConstants chkAccount recZero).1 rfl
  have h2 := (C4_transaction_category defaultConstants cardAccount recZero).2 rfl (by decide)
  exact ⟨h1.1 (by norm_num [recZero, recNoMatch]), h2.1 (by norm_num [recZero, recNoMatch])⟩

/-- C5: account resolution returns the first configured rule whose search
string is contained in the description (earlier rule wins regardless of
specificity); with no match it falls back to the revenue default for category
Deposit (`"D"`) and the expense default for category Withdrawal (`"C"`), with
the unknown-partner sentinel, and it always returns one of these — it never
fails. -/
theorem C5_first_match_resolution (props : BankAccountProps) (desc cat : String) :
    (∀ l1 m l2, props.glMapping = l1 ++ m :: l2 →
      (∀ m1 ∈ l1, strContainsSub desc m1.searchString = false) →
      strContainsSub desc m.searchString = true →
      get_gl_mapping_for_search_string props desc cat = m) ∧
    ((∀ m1 ∈ props.glMapping, strContainsSub desc m1.searchString = false) →
      (cat = defaultConstants.bankTransactionCategories.deposit →
        get_gl_mapping_for_search_string props desc cat =
          { searchString := desc
            glAccount := props.missingGlMappingDefault.glAccountRevenue
            bp := props.missingGlMappingDefault.unknownBp }) ∧
      (cat = defaultConstants.bankTransactionCategories.withdrawal →
        get_gl_mapping_for_search_string props desc cat =
          { searchString := desc
            glAccount := props.missingGlMappingDefault.glAccountExpense
            bp := props.missingGlMappingDefault.unknownBp })) ∧
    ((∃ m, m ∈ props.glMapping ∧ get_gl_mapping_for_search_string props desc cat = m) ∨
      get_gl_mapping_for_search_string props desc cat =
        { searchString := desc
          glAccount := props.missingGlMappingDefault.glAccountRevenue
          bp := props.missingGlMappingDefault.unknownBp } ∨
      get_gl_mapping_for_search_string props desc cat =
        { searchString := desc
          glAccount := props.missingGlMappingDefault.glAccountExpense
          bp := props.missingGlMappingDefault.unknownBp }) := by
  refine ⟨?_, ?_, ?_⟩
  · intro l1 m l2 hsplit h1 hm
    unfold get_gl_mapping_for_search_string
    rw [hsplit, find?_first_true _ l1 m l2 h1 hm]
  · intro hnone
    have hf : props.glMapping.find? (fun m => strContainsSub desc m.searchString) = none := by
      rw [List.find?_eq_none]
      intro x hx
      simp [hnone x hx]
    constructor <;> intro hcat <;> subst hcat <;>
      simp [get_gl_mapping_for_search_string, hf, defaultConstants]
  · cases hf : props.glMapping.find? (fun m => strContainsSub desc m.searchString) with
    | some m =>
      exact Or.inl ⟨m, List.mem_of_find?_eq_some hf,
        by simp [get_gl_mapping_for_search_string, hf]⟩
    | none =>
      by_cases hcat : (cat == "D") = true
      · exact Or.inr (Or.inl (by simp [get_gl_mapping_for_search_string, hf, hcat]))
      · refine Or.inr (Or.inr (by simp [get_gl_mapping_for_search_string, hf]; simp at hcat; simp [hcat]))

/-- C5 witness: with both `"FOO"` and `"FOOBAR"` contained in the
description, the earlier rule `"FOO"` wins; with no match on a Withdrawal,
the expense default and unknown partner are synthesized. -/
theorem C5_first_match_resolution_witness :
    get_gl_mapping_for_search_string abAccount "XX FOOBAR YY" "C" =
      { searchString := "FOO", glAccount := "5100", bp := "BPA" } ∧
    get_gl_mapping_for_search_string chkAccount "RENT PAYMENT" "C" =
      { searchString := "RENT PAYMENT", glAccount := "6000", bp := "UNKNOWN" } := by
  have h1 := (C5_first_match_resolution abAccount "XX FOOBAR YY" "C").1 []
    { searchString := "FOO", glAccount := "5100", bp := "BPA" }
    [{ searchString := "FOOBAR", glAccount := "5200", bp := "BPB" }]
    rfl (by simp) (by decide)
  have h2 := ((C5_first_match_resolution chkAccount "RENT PAYMENT" "C").2.1
    (by intro m1 hm1; simp [chkAccount] at hm1; subst hm1; decide)).2 rfl
  exact ⟨h1, h2⟩

/-- C10: the transaction category does not influence resolution when some
rule matches the description; it only routes the no-match fallback. -/
theorem C10_category_noninterference (props : BankAccountProps)
    (desc cat1 cat2 : String)
    (h : ∃ m, m ∈ props.glMapping ∧ strContainsSub desc m.searchString = true) :
    get_gl_mapping_for_search_string props desc cat1 =
      get_gl_mapping_for_search_string props desc cat2 := by
  unfold get_gl_mapping_for_search_string
  cases hf : props.glMapping.find? (fun m => strContainsSub desc m.searchString) with
  | some m => rfl
  | none =>
    obtain ⟨m, hm, hmt⟩ := h
    rw [List.find?_eq_none] at hf
    exact absurd hmt (by simpa using hf m hm)

/-- C10 witness: a matched description resolves identically under the Deposit
and the Withdrawal category. -/
theorem C10_category_noninterference_witness :
    get_gl_mapping_for_search_string abAccount "XX FOOBAR YY" "D" =
      get_gl_mapping_for_search_string abAccount "XX FOOBAR YY" "C" :=
  C10_category_noninterference abAccount "XX FOOBAR YY" "D" "C"
    ⟨{ searchString := "FOO", glAccount := "5100", bp := "BPA" }, by simp [abAccount], by decide⟩

/-- C6: on the Debit-type account, a -42.50 record matching no rule is a
Withdrawal (category code `"C"`): the primary leg gets indicator Debit
(`"D"`) with positive amount +42.50 on the fallback expense account, and the
offsetting leg gets indicator Credit (`"C"`) with amount -42.50 on the
account's configured balance-sheet account `"1000"`. -/
theorem C6_debit_withdrawal_example :
    (GLDocument.make defaultConstants chartW chkAccount recNoMatch).map
        (fun doc =>
          (doc.bank_transaction_category,
           doc.items.map (fun item =>
             (item.debit_credit_indicator, item.transaction_amount, item.account_id)))) =
      .ok ("C", [("D", (85/2 : ℚ), "6000"), ("C", (-(85/2) : ℚ), "1000")]) := by
  rw [make_docW]
  simp [docW, Except.map]

/-- A chart holding only the balance-sheet account of `chkAccount`. -/
def chartBS : ChartOfAccounts := [("1000", { accountType := "ASSET", isTaxable := false })]

/-- A chart holding only the revenue fallback account, not the balance-sheet
account of `chkAccount`. -/
def chartNoBS : ChartOfAccounts := [("4000", { accountType := "REVENUE", isTaxable := true })]

/-- C7: when the resolved primary-leg GL account id is absent from the chart,
construction of that single record's document fails with `ValueError`; the
ingestion loop catches it, skips exactly that record with the store
untouched, and continues with the remaining records — it never aborts the
run. -/
theorem C7_unmapped_account_skipped (c : Constants) (chart : ChartOfAccounts)
    (props : BankAccountProps) (record : BankTransactionRecord)
    (h : get_account_properties chart
        (get_gl_mapping_for_search_string props record.description
          (determine_bank_transaction_category c props record)).glAccount = none) :
    GLDocument.make c chart props record = .error .valueError ∧
    ∀ (rest : List BankTransactionRecord) (db : GlItemsTable),
      record_bank_file_transactions_in_GL c chart props (record :: rest) db =
        record_bank_file_transactions_in_GL c chart props rest db := by
  have hmk : GLDocument.make c chart props record = .error .valueError := by
    simp only [GLDocument.make, add_gl_item, add_offsetting_gl_item, h]
  refine ⟨hmk, fun rest db => ?_⟩
  simp only [record_bank_file_transactions_in_GL, record_step, hmk]

/-- C7 witness: with a chart lacking the fallback revenue account, the
zero-amount record is skipped and a one-record run leaves the empty store
empty and terminates normally. -/
theorem C7_unmapped_account_skipped_witness :
    GLDocument.make defaultConstants chartBS chkAccount recZero = .error .valueError ∧
    record_bank_file_transactions_in_GL defaultConstants chartBS chkAccount [recZero] [] =
      .ok [] := by
  have h := C7_unmapped_account_skipped defaultConstants chartBS chkAccount recZero (by decide)
  exact ⟨h.1, by rw [h.2 [] []]; rfl⟩

/-- C9: when the primary leg resolves in the chart but the account's
configured balance-sheet account is absent, the offsetting-leg lookup yields
the empty mapping and its subscript raises `KeyError`, not the `ValueError`
of the primary-leg miss; since the loop's handler catches only `ValueError`,
the exception propagates out of the ingestion loop instead of being
skipped-and-logged. -/
theorem C9_missing_balance_sheet_propagates (c : Constants) (chart : ChartOfAccounts)
    (props : BankAccountProps) (record : BankTransactionRecord) (ap : ChartAccountProps)
    (h1 : get_account_properties chart
        (get_gl_mapping_for_search_string props record.description
          (determine_bank_transaction_category c props record)).glAccount = some ap)
    (h2 : get_account_properties chart props.balanceSheetAccount = none) :
    GLDocument.make c chart props record = .error .keyError ∧
    ∀ (rest : List BankTransactionRecord) (db : GlItemsTable),
      record_bank_file_transactions_in_GL c chart props (record :: rest) db =
        .error .keyError := by
  have hmk : GLDocument.make c chart props record = .error .keyError := by
    simp only [GLDocument.make, add_gl_item, add_offsetting_gl_item, h1, h2]
  refine ⟨hmk, fun rest db => ?_⟩
  simp only [record_bank_file_transactions_in_GL, record_step, hmk]

/-- C9 witness: with a chart holding the revenue fallback but not the
balance-sheet account, the run on the zero-amount record aborts with
`KeyError`. -/
theorem C9_missing_balance_sheet_propagates_witness :
    GLDocument.make defaultConstants chartNoBS chkAccount recZero = .error .keyError ∧
    record_bank_file_transactions_in_GL defaultConstants chartNoBS chkAccount [recZero] [] =
      .error .keyError := by
  have h := C9_missing_balance_sheet_propagates defaultConstants chartNoBS chkAccount recZero
    { accountType := "REVENUE", isTaxable := true } (by decide) (by decide)
  exact ⟨h.1, h.2 [] []⟩

/-! ## Lemmas on the ingestion loop's store behaviour -/

/-- Row counts add over appended table segments. -/
lemma count_transaction_id_append (db1 db2 : GlItemsTable) (tid : String) :
    count_transaction_id (db1 ++ db2) tid =
      count_transaction_id db1 tid + count_transaction_id db2 tid := by
  simp [count_transaction_id, List.countP_append]

/-- The existence check is the positivity of the row count. -/
lemma gl_items_exist_iff (db : GlItemsTable) (doc : GLDocument) :
    gl_items_exist db doc = true ↔ 0 < count_transaction_id db doc.transaction_id := by
  simp [gl_items_exist]

/-- A constructed document contributes two rows under its own transaction id
and none under any other. -/
lemma make_ok_items_count {c : Constants} {chart : ChartOfAccounts} {props : BankAccountProps}
    {record : BankTransactionRecord} {doc : GLDocument}
    (hmk : GLDocument.make c chart props record = .ok doc) (tid : String) :
    count_transaction_id doc.items tid = if doc.transaction_id = tid then 2 else 0 := by
  obtain ⟨p, o, hitems, hp, ho, -⟩ := make_ok_items hmk
  by_cases h : doc.transaction_id = tid
  · simp [count_transaction_id, hitems, List.countP_cons, hp, ho, h]
  · simp [count_transaction_id, hitems, List.countP_cons, hp, ho, h]

/-- A successful loop step either keeps the table (skip) or appends the
freshly constructed document's items (insert after a negative check). -/
lemma record_step_ok_cases {c : Constants} {chart : ChartOfAccounts} {props : BankAccountProps}
    {db db2 : GlItemsTable} {record : BankTransactionRecord}
    (h : record_step c chart props db record = .ok db2) :
    db2 = db ∨ ∃ doc : GLDocument,
      GLDocument.make c chart props record = .ok doc ∧
      gl_items_exist db doc = false ∧ db2 = db ++ doc.items := by
  unfold record_step at h
  cases hmk : GLDocument.make c chart props record with
  | error e =>
    rw [hmk] at h
    cases e
    · have h2 : Except.ok (ε := PyError) db = .ok db2 := h
      injection h2 with h2
      exact Or.inl h2.symm
    · exact Except.noConfusion
        (show Except.error PyError.keyError = Except.ok db2 from h)
    · exact Except.noConfusion
        (show Except.error PyError.assertionError = Except.ok db2 from h)
  | ok doc =>
    rw [hmk] at h
    have h3 : (if gl_items_exist db doc = true then Except.ok db
        else insert_gl_items_into_db doc db) = .ok db2 := h
    by_cases hex : gl_items_exist db doc = true
    · rw [if_pos hex] at h3
      injection h3 with h3
      exact Or.inl h3.symm
    · have hex2 : gl_items_exist db doc = false := by simpa using hex
      rw [if_neg hex] at h3
      unfold insert_gl_items_into_db at h3
      rw [if_pos (make_ok_sum_zero hmk)] at h3
      injection h3 with h3
      exact Or.inr ⟨doc, rfl, hex2, h3.symm⟩

/-- The store only grows along a successful run. -/
lemma run_extends {c : Constants} {chart : ChartOfAccounts} {props : BankAccountProps} :
    ∀ (batch : List BankTransactionRecord) (db db' : GlItemsTable),
      record_bank_file_transactions_in_GL c chart props batch db = .ok db' →
      ∃ ext, db' = db ++ ext
  | [], db, db', h => by
    refine ⟨[], ?_⟩
    injection h with h
    simp [h]
  | record :: rest, db, db', h => by
    unfold record_bank_file_transactions_in_GL at h
    cases hs : record_step c chart props db record with
    | error e => rw [hs] at h; exact absurd h (by simp)
    | ok db2 =>
      rw [hs] at h
      obtain ⟨ext2, hext2⟩ := run_extends rest db2 db' h
      rcases record_step_ok_cases hs with rfl | ⟨doc, -, -, rfl⟩
      · exact ⟨ext2, hext2⟩
      · exact ⟨doc.items ++ ext2, by simp [hext2]⟩

/-- When the record constructs and its id is already present, a step skips. -/
lemma record_step_present {c : Constants} {chart : ChartOfAccounts} {props : BankAccountProps}
    {record : BankTransactionRecord} {doc : GLDocument} {db : GlItemsTable}
    (hmk : GLDocument.make c chart props record = .ok doc)
    (hpos : 0 < count_transaction_id db doc.transaction_id) :
    record_step c chart props db record = .ok db := by
  unfold record_step
  rw [hmk]
  show (if gl_items_exist db doc = true then Except.ok db
      else insert_gl_items_into_db doc db) = Except.ok db
  rw [if_pos ((gl_items_exist_iff db doc).mpr hpos)]

/-- After a successful step on a record that constructs, the document's id is
present in the resulting table. -/
lemma record_step_ok_present {c : Constants} {chart : ChartOfAccounts} {props : BankAccountProps}
    {record : BankTransactionRecord} {doc : GLDocument} {db db2 : GlItemsTable}
    (hmk : GLDocument.make c chart props record = .ok doc)
    (hs : record_step c chart props db record = .ok db2) :
    0 < count_transaction_id db2 doc.transaction_id := by
  unfold record_step at hs
  rw [hmk] at hs
  have hs3 : (if gl_items_exist db doc = true then Except.ok db
      else insert_gl_items_into_db doc db) = .ok db2 := hs
  by_cases hex : gl_items_exist db doc = true
  · rw [if_pos hex] at hs3
    injection hs3 with hs3
    rw [← hs3]
    exact (gl_items_exist_iff db doc).mp hex
  · rw [if_neg hex] at hs3
    unfold insert_gl_items_into_db at hs3
    rw [if_pos (make_ok_sum_zero hmk)] at hs3
    injection hs3 with hs3
    rw [← hs3, count_transaction_id_append, make_ok_items_count hmk]
    simp

/-- Skips preserved: under presence of the id, the second pass over a record
keeps the store. -/
lemma run_fixpoint {c : Constants} {chart : ChartOfAccounts} {props : BankAccountProps} :
    ∀ (batch : List BankTransactionRecord) (db db' : GlItemsTable),
      record_bank_file_transactions_in_GL c chart props batch db = .ok db' →
      record_bank_file_transactions_in_GL c chart props batch db' = .ok db'
  | [], db, db', h => by
    have h2 : Except.ok (ε := PyError) db = .ok db' := h
    injection h2 with h2
    rw [← h2]
    rfl
  | record :: rest, db, db', h => by
    unfold record_bank_file_transactions_in_GL at h ⊢
    cases hs : record_step c chart props db record with
    | error e => rw [hs] at h; exact absurd h (by simp)
    | ok db2 =>
      rw [hs] at h
      have hstep : record_step c chart props db' record = .ok db' := by
        cases hmk : GLDocument.make c chart props record with
        | error e =>
          cases e with
          | valueError => unfold record_step; rw [hmk]
          | keyError =>
            exfalso
            unfold record_step at hs
            rw [hmk] at hs
            exact Except.noConfusion
              (show Except.error PyError.keyError = Except.ok db2 from hs)
          | assertionError =>
            exfalso
            unfold record_step at hs
            rw [hmk] at hs
            exact Except.noConfusion
              (show Except.error PyError.assertionError = Except.ok db2 from hs)
        | ok doc =>
          have hpos2 : 0 < count_transaction_id db2 doc.transaction_id :=
            record_step_ok_present hmk hs
          obtain ⟨ext, hext⟩ := run_extends rest db2 db' h
          have hpos : 0 < count_transaction_id db' doc.transaction_id := by
            rw [hext, count_transaction_id_append]
            omega
          exact record_step_present hmk hpos
      rw [hstep]
      exact run_fixpoint rest db2 db' h

/-- The 0-or-2 row-count shape is preserved by one loop step. -/
lemma record_step_preserves_pairs {c : Constants} {chart : ChartOfAccounts}
    {props : BankAccountProps} {db db2 : GlItemsTable} {record : BankTransactionRecord}
    (hinv : ∀ tid, count_transaction_id db tid = 0 ∨ count_transaction_id db tid = 2)
    (hs : record_step c chart props db record = .ok db2) :
    ∀ tid, count_transaction_id db2 tid = 0 ∨ count_transaction_id db2 tid = 2 := by
  rcases record_step_ok_cases hs with rfl | ⟨doc, hmk, hex, rfl⟩
  · exact hinv
  · intro tid
    rw [count_transaction_id_append, make_ok_items_count hmk]
    have hzero : count_transaction_id db doc.transaction_id = 0 := by
      have := (gl_items_exist_iff db doc).not
      simp [hex] at this
      omega
    by_cases h : doc.transaction_id = tid
    · rw [← h, hzero]
      right
      simp
    · rw [if_neg h]
      simpa using hinv tid

/-- The 0-or-2 row-count shape is preserved by a whole run. -/
lemma run_preserves_pairs {c : Constants} {chart : ChartOfAccounts} {props : BankAccountProps} :
    ∀ (batch : List BankTransactionRecord) (db db' : GlItemsTable),
      (∀ tid, count_transaction_id db tid = 0 ∨ count_transaction_id db tid = 2) →
      record_bank_file_transactions_in_GL c chart props batch db = .ok db' →
      ∀ tid, count_transaction_id db' tid = 0 ∨ count_transaction_id db' tid = 2
  | [], db, db', hinv, h => by
    have h2 : Except.ok (ε := PyError) db = .ok db' := h
    injection h2 with h2
    rwa [← h2]
  | record :: rest, db, db', hinv, h => by
    unfold record_bank_file_transactions_in_GL at h
    cases hs : record_step c chart props db record with
    | error e => rw [hs] at h; exact absurd h (by simp)
    | ok db2 =>
      rw [hs] at h
      exact run_preserves_pairs rest db2 db' (record_step_preserves_pairs hinv hs) h

/-- C3: the loop inserts a posting pair exactly when the existence check for
its transaction identity is negative — a negative check appends the two legs,
a positive check leaves the store untouched; re-running the loop over the
identical record list with the store carried over returns the store unchanged
(zero rows inserted); and starting from a store in which every identity has
zero or two rows (the empty store included), every identity still has zero or
two rows afterwards — each distinct transaction's postings are stored exactly
once. -/
theorem C3_insert_iff_absent_idempotent (c : Constants) (chart : ChartOfAccounts)
    (props : BankAccountProps) :
    (∀ (db : GlItemsTable) (record : BankTransactionRecord) (doc : GLDocument),
      GLDocument.make c chart props record = .ok doc →
      (gl_items_exist db doc = false →
        record_step c chart props db record = .ok (db ++ doc.items)) ∧
      (gl_items_exist db doc = true →
        record_step c chart props db record = .ok db)) ∧
    (∀ (batch : List BankTransactionRecord) (db db' : GlItemsTable),
      record_bank_file_transactions_in_GL c chart props batch db = .ok db' →
      record_bank_file_transactions_in_GL c chart props batch db' = .ok db') ∧
    (∀ (batch : List BankTransactionRecord) (db db' : GlItemsTable),
      (∀ tid, count_transaction_id db tid = 0 ∨ count_transaction_id db tid = 2) →
      record_bank_file_transactions_in_GL c chart props batch db = .ok db' →
      ∀ tid, count_transaction_id db' tid = 0 ∨ count_transaction_id db' tid = 2) := by
  refine ⟨?_, fun batch db db' => run_fixpoint batch db db',
    fun batch db db' => run_preserves_pairs batch db db'⟩
  intro db record doc hmk
  constructor
  · intro hex
    unfold record_step
    rw [hmk]
    show (if gl_items_exist db doc = true then Except.ok db
        else insert_gl_items_into_db doc db) = _
    rw [if_neg (by simp [hex]), insert_gl_items_into_db, if_pos (make_ok_sum_zero hmk)]
  · intro hex
    unfold record_step
    rw [hmk]
    show (if gl_items_exist db doc = true then Except.ok db
        else insert_gl_items_into_db doc db) = _
    rw [if_pos hex]

/-- C3 witness: a one-record run on the empty store inserts the pair, and a
second identical run carried over the store returns it unchanged, with the
pair-count shape intact. -/
theorem C3_insert_iff_absent_idempotent_witness :
    record_step defaultConstants chartW chkAccount [] recNoMatch = .ok docW.items ∧
    record_bank_file_transactions_in_GL defaultConstants chartW chkAccount [recNoMatch]
      docW.items = .ok docW.items ∧
    (count_transaction_id docW.items docW.transaction_id = 0 ∨
      count_transaction_id docW.items docW.transaction_id = 2) := by
  have h := C3_insert_iff_absent_idempotent defaultConstants chartW chkAccount
  have hex : gl_items_exist [] docW = false := by rfl
  have hstep := (h.1 [] recNoMatch docW make_docW).1 hex
  have hrun1 : record_bank_file_transactions_in_GL defaultConstants chartW chkAccount
      [recNoMatch] [] = .ok docW.items := by
    unfold record_bank_file_transactions_in_GL
    rw [hstep]
    rfl
  refine ⟨by simpa using hstep, h.2.1 [recNoMatch] [] docW.items hrun1, ?_⟩
  exact h.2.2 [recNoMatch] [] docW.items (fun tid => Or.inl rfl) hrun1 docW.transaction_id

/-! ## Lemmas on batch identity assignment -/

/-- Lengths are preserved by the suffixing pass. -/
lemma append_sub_numbers_length :
    ∀ (ds seen : List String), (append_sub_numbers seen ds).length = ds.length
  | [], _ => rfl
  | _ :: rest, seen => by
    simp [append_sub_numbers, append_sub_numbers_length rest]

/-- Position `i` of the suffixing pass: the digest at `i` followed by an
underscore and one plus the number of occurrences of that digest among the
accumulated prefix. -/
lemma append_sub_numbers_spec :
    ∀ (ds seen : List String) (i : Nat), i < ds.length →
      (append_sub_numbers seen ds).getD i "" =
        ds.getD i "" ++ "_" ++ toString ((seen ++ ds.take i).count (ds.getD i "") + 1)
  | [], _, i, hi => absurd hi (by simp)
  | d :: rest, seen, 0, _ => by
    simp [append_sub_numbers]
  | d :: rest, seen, i + 1, hi => by
    have ih := append_sub_numbers_spec rest (d :: seen) i (by simpa using hi)
    simp only [append_sub_numbers, List.getD_cons_succ, List.take_succ_cons, ih]
    have hc : ((d :: seen) ++ rest.take i).count (rest.getD i "") =
        (seen ++ d :: rest.take i).count (rest.getD i "") := by
      simp [List.count_append, List.count_cons]
      omega
    rw [hc]

/-- An underscore-suffixed string is never the bare string. -/
lemma append_suffix_ne (s t : String) (ht : t.data.length ≠ 0) : s ++ t ≠ s := by
  intro h
  have h2 : (s ++ t).data = s.data := congrArg String.data h
  rw [String.data_append] at h2
  have h3 := congrArg List.length h2
  rw [List.length_append] at h3
  omega

/-- Two suffixed copies of one string with different suffixes differ. -/
lemma append_suffix_inj (s t u : String) (h : s ++ t = s ++ u) : t = u := by
  have h2 : (s ++ t).data = (s ++ u).data := congrArg String.data h
  rw [String.data_append, String.data_append] at h2
  exact String.ext (List.append_cancel_left h2)

/-- A parsed bank-file row used in the identity examples. -/
def rowW : BankFileRow :=
  { dateStr := "2024-03-01 00:00:00", amountStr := "-4.50", description := "COFFEE SHOP 12" }

/-- Identity of a single-row batch: the digest of the row already carries the
ordinal suffix `_1`. -/
lemma set_transaction_id_singleton (code : String) (row : BankFileRow) :
    set_transaction_id code [row] = [sha256Hex (row_hash_input code row) ++ "_1"] := by
  simp only [set_transaction_id, List.map_cons, List.map_nil, append_sub_numbers,
    List.count_nil]
  norm_num
  rw [String.append_assoc]
  rfl

/-- Identities of a two-copy batch: `_1` then `_2`. -/
lemma set_transaction_id_pair (code : String) (row : BankFileRow) :
    set_transaction_id code [row, row] =
      [sha256Hex (row_hash_input code row) ++ "_1",
       sha256Hex (row_hash_input code row) ++ "_2"] := by
  simp only [set_transaction_id, List.map_cons, List.map_nil, append_sub_numbers,
    List.count_nil, List.count_cons, List.count_nil, beq_self_eq_true, if_true]
  norm_num
  constructor
  · rw [String.append_assoc]; rfl
  · rw [String.append_assoc]; rfl

/-- One leg of a hand-built balanced pair, used to exercise the guarded
insert on explicitly chosen identities. -/
def pairItem (tid itemId : String) (amt : ℚ) (dc : String) : GLItem :=
  { transaction_id := tid
    transaction_item_id := itemId
    bank_csv_file := ""
    bank_csv_row_index := ""
    transaction_date := "2024-03-01 00:00:00"
    posting_year := 2024
    posting_period := 3
    transaction_amount := amt
    currency_unit := "USD"
    debit_credit_indicator := dc
    transaction_description := "COFFEE SHOP 12"
    account_id := "6100"
    business_partner := "CAFE"
    bank_account_code := "CHK"
    investment_name := none
    investment_symbol := none
    check_no := none
    account_type := "EXPENSE"
    is_taxable := false }

/-- A balanced two-leg document carrying a chosen transaction identity. -/
def mkPairDoc (tid : String) : GLDocument :=
  { transaction_id := tid
    bank_transaction_category := "C"
    items := [pairItem tid "001" 5 "D", pairItem tid "002" (-5) "C"] }

/-- C2 counterexample: in a single-record batch the record's digest has not
appeared earlier, yet `_set_transaction_id` does not assign the bare digest —
the ordinal suffix `_1` is appended to every identity, the first occurrence
included. -/
theorem C2_fresh_digest_counterexample :
    set_transaction_id "CHK" [rowW] ≠ [sha256Hex (row_hash_input "CHK" rowW)] := by
  rw [set_transaction_id_singleton]
  intro h
  injection h with h2 h3
  exact append_suffix_ne _ "_1" (by decide) h2

/-- C2 (amended): every batch identity is the SHA-256 hex digest of the
concatenated date, amount, description and account code, suffixed with an
underscore and one plus the number of earlier records in the batch carrying
the same digest — so a fresh digest yields `<digest>_1`, two records with
identical facts yield `<digest>_1` and `<digest>_2` in encounter order, the
two are distinct, and posting pairs bearing two distinct identities absent
from the store both pass the existence check and are both inserted. -/
theorem C2_identity_ordinals_amended :
    (∀ (code : String) (rows : List BankFileRow) (i : Nat), i < rows.length →
      (set_transaction_id code rows).getD i "" =
        (rows.map (fun r => sha256Hex (row_hash_input code r))).getD i "" ++ "_" ++
          toString
            (((rows.map (fun r => sha256Hex (row_hash_input code r))).take i).count
              ((rows.map (fun r => sha256Hex (row_hash_input code r))).getD i "") + 1)) ∧
    (∀ (code : String) (row : BankFileRow),
      set_transaction_id code [row, row] =
        [sha256Hex (row_hash_input code row) ++ "_1",
         sha256Hex (row_hash_input code row) ++ "_2"] ∧
      sha256Hex (row_hash_input code row) ++ "_1" ≠
        sha256Hex (row_hash_input code row) ++ "_2") ∧
    (∀ (doc1 doc2 : GLDocument) (db : GlItemsTable),
      doc1.transaction_id ≠ doc2.transaction_id →
      gl_items_exist db doc1 = false →
      gl_items_exist db doc2 = false →
      (∀ item ∈ doc1.items, item.transaction_id = doc1.transaction_id) →
      (doc1.items.map (fun item => item.transaction_amount)).sum = 0 →
      (doc2.items.map (fun item => item.transaction_amount)).sum = 0 →
      insert_gl_items_into_db doc1 db = .ok (db ++ doc1.items) ∧
      gl_items_exist (db ++ doc1.items) doc2 = false ∧
      insert_gl_items_into_db doc2 (db ++ doc1.items) =
        .ok (db ++ doc1.items ++ doc2.items)) := by
  refine ⟨?_, ?_, ?_⟩
  · intro code rows i hi
    have hlen : i < (rows.map (fun r => sha256Hex (row_hash_input code r))).length := by
      simpa using hi
    have h := append_sub_numbers_spec
      (rows.map (fun r => sha256Hex (row_hash_input code r))) [] i hlen
    simpa [set_transaction_id] using h
  · intro code row
    refine ⟨set_transaction_id_pair code row, fun h => ?_⟩
    have h2 := append_suffix_inj _ _ _ h
    exact absurd h2 (by decide)
  · intro doc1 doc2 db hne hex1 hex2 hids hsum1 hsum2
    have hcount1 : count_transaction_id db doc1.transaction_id = 0 := by
      have := (gl_items_exist_iff db doc1).not
      simp [hex1] at this
      omega
    have hcount2 : count_transaction_id db doc2.transaction_id = 0 := by
      have := (gl_items_exist_iff db doc2).not
      simp [hex2] at this
      omega
    have hfree : count_transaction_id doc1.items doc2.transaction_id = 0 := by
      refine List.countP_eq_zero.mpr ?_
      intro item hmem
      simp [hids item hmem]
      exact hne
    refine ⟨?_, ?_, ?_⟩
    · unfold insert_gl_items_into_db
      rw [if_pos hsum1]
    · have : count_transaction_id (db ++ doc1.items) doc2.transaction_id = 0 := by
        rw [count_transaction_id_append, hcount2, hfree]
      simp [gl_items_exist, this]
    · unfold insert_gl_items_into_db
      rw [if_pos hsum2]

/-- C2 witness: the duplicate pair of a concrete row receives `_1` and `_2`,
and two hand-built pairs with the two distinct identities are both inserted
into the empty store. -/
theorem C2_identity_ordinals_amended_witness :
    set_transaction_id "CHK" [rowW, rowW] =
      [sha256Hex (row_hash_input "CHK" rowW) ++ "_1",
       sha256Hex (row_hash_input "CHK" rowW) ++ "_2"] ∧
    insert_gl_items_into_db (mkPairDoc "a_1") [] = .ok ([] ++ (mkPairDoc "a_1").items) ∧
    insert_gl_items_into_db (mkPairDoc "a_2") ([] ++ (mkPairDoc "a_1").items) =
      .ok ([] ++ (mkPairDoc "a_1").items ++ (mkPairDoc "a_2").items) := by
  have h := C2_identity_ordinals_amended
  have hb := (h.2.1 "CHK" rowW).1
  have hd := h.2.2 (mkPairDoc "a_1") (mkPairDoc "a_2") []
    (by decide) rfl rfl (by decide)
    (by norm_num [mkPairDoc, pairItem]) (by norm_num [mkPairDoc, pairItem])
  exact ⟨hb, hd.1, hd.2.2⟩

/-! ## Decimal round-trip lemmas (`database.py`) -/

/-- Rebuilding a number from its little-endian digits. -/
lemma natDigitsRevGo_foldr :
    ∀ (fuel n : Nat), n ≤ fuel →
      (natDigitsRevGo fuel n).foldr (fun d acc => 10 * acc + d) 0 = n
  | 0, n, h => by
    have h0 : n = 0 := by omega
    subst h0
    rfl
  | fuel + 1, n, h => by
    by_cases h0 : n = 0
    · subst h0
      simp [natDigitsRevGo]
    · have hlt : n / 10 ≤ fuel := by
        have hdl : n / 10 < n := Nat.div_lt_self (Nat.pos_of_ne_zero h0) (by norm_num)
        omega
      have hrec := natDigitsRevGo_foldr fuel (n / 10) hlt
      simp only [natDigitsRevGo, if_neg h0, List.foldr_cons, hrec]
      omega

/-- Every produced digit is below 10. -/
lemma natDigitsRevGo_lt10 :
    ∀ (fuel n : Nat), ∀ d ∈ natDigitsRevGo fuel n, d < 10
  | 0, _, d, hd => absurd hd (by simp [natDigitsRevGo])
  | fuel + 1, n, d, hd => by
    by_cases h0 : n = 0
    · subst h0
      simp [natDigitsRevGo] at hd
    · simp only [natDigitsRevGo, if_neg h0, List.mem_cons] at hd
      rcases hd with rfl | hd
      · omega
      · exact natDigitsRevGo_lt10 fuel (n / 10) d hd

/-- Code of a decimal digit character. -/
lemma decimalDigitChar_toNat (d : Nat) (h : d < 10) :
    (decimalDigitChar d).toNat = 48 + d := by
  interval_cases d <;> rfl

/-- Parsing the big-endian character rendering of a small-digit list. -/
lemma parse_digit_list :
    ∀ (l : List Nat), (∀ d ∈ l, d < 10) →
      parseNatDigits ((l.reverse).map decimalDigitChar) =
        l.foldr (fun d acc => 10 * acc + d) 0
  | [], _ => rfl
  | d :: rest, hl => by
    have hrec := parse_digit_list rest (fun x hx => hl x (by simp [hx]))
    have hd := hl d (by simp)
    rw [List.reverse_cons, List.map_append]
    unfold parseNatDigits
    rw [List.foldl_append]
    have hfold : List.foldl (fun acc c => 10 * acc + (c.toNat - 48)) 0
        (rest.reverse.map decimalDigitChar) =
        rest.foldr (fun d acc => 10 * acc + d) 0 := hrec
    simp only [List.map_cons, List.map_nil, List.foldl_cons, List.foldl_nil, hfold,
      decimalDigitChar_toNat d hd, List.foldr_cons]
    omega

/-- Parsing back the decimal text of a natural number. -/
lemma parse_natRepr (n : Nat) : parseNatDigits (natRepr n).data = n := by
  by_cases h0 : n = 0
  · subst h0
    rfl
  · unfold natRepr
    rw [if_neg h0]
    show parseNatDigits ((natDigitsRevGo n n).reverse.map decimalDigitChar) = n
    rw [parse_digit_list _ (natDigitsRevGo_lt10 n n)]
    exact natDigitsRevGo_foldr n n le_rfl

/-- All characters of a natural number's decimal text are digit characters
(code at least 48), so none is a minus sign. -/
lemma natRepr_mem_ge48 (n : Nat) : ∀ c ∈ (natRepr n).data, 48 ≤ c.toNat := by
  by_cases h0 : n = 0
  · subst h0
    intro c hc
    have hdata : (natRepr 0).data = ['0'] := rfl
    rw [hdata] at hc
    simp at hc
    subst hc
    decide
  · intro c hc
    unfold natRepr at hc
    rw [if_neg h0] at hc
    have hc2 : c ∈ (natDigitsRevGo n n).reverse.map decimalDigitChar := hc
    rw [List.mem_map] at hc2
    obtain ⟨d, hd, rfl⟩ := hc2
    have hd10 := natDigitsRevGo_lt10 n n d (List.mem_reverse.mp hd)
    rw [decimalDigitChar_toNat d hd10]
    omega

/-- Parsing the decimal text of a natural number: no minus branch fires. -/
lemma parseIntText_natRepr (n : Nat) : parseIntText (natRepr n) = (n : Int) := by
  have hkey : parseIntText (natRepr n) = (parseNatDigits (natRepr n).data : Int) := by
    unfold parseIntText
    cases hdata : (natRepr n).data with
    | nil => simp [parseNatDigits]
    | cons c rest =>
      have hge := natRepr_mem_ge48 n c (by rw [hdata]; simp)
      have hne : (c == '-') = false := by
        refine beq_eq_false_iff_ne.mpr ?_
        intro hcontra
        subst hcontra
        have h45 : ('-').toNat = 45 := rfl
        omega
      show (if (c == '-') = true then -(parseNatDigits rest : Int)
          else (parseNatDigits (c :: rest) : Int)) = (parseNatDigits (c :: rest) : Int)
      rw [hne]
      simp
  rw [hkey, parse_natRepr]

/-- The decimal text of every integer parses back to it. -/
lemma parseIntText_intRepr (i : Int) : parseIntText (intRepr i) = i := by
  unfold intRepr
  by_cases hneg : i < 0
  · rw [if_pos hneg]
    show -(parseNatDigits (natRepr i.natAbs).data : Int) = i
    rw [parse_natRepr]
    omega
  · rw [if_neg hneg, parseIntText_natRepr]
    omega

/-- C8: a decimal amount with at most two fractional digits — positive, zero
or negative — survives the storage round trip exactly: scaling to the stored
integer (`adapt_decimal`), rendering that integer as text and parsing it back
divided by 100 (`convert_decimal`) returns the original value, with no
binary-float drift. -/
theorem C8_decimal_text_roundtrip (d : ℚ) (n : Int) (h : d * 100 = (n : ℚ)) :
    convert_decimal (intRepr (adapt_decimal d)) = d := by
  have hadapt : adapt_decimal d = n := by
    unfold adapt_decimal
    rw [h, Rat.num_intCast, Rat.den_intCast]
    simp
  rw [hadapt]
  unfold convert_decimal
  rw [parseIntText_intRepr]
  rw [← h]
  field_simp

/-- C8 witness: 12.34 and -42.50 round-trip through their stored scaled
integers 1234 and -4250. -/
theorem C8_decimal_text_roundtrip_witness :
    convert_decimal (intRepr (adapt_decimal (617/50))) = 617/50 ∧
    convert_decimal (intRepr (adapt_decimal (-(85/2)))) = -(85/2) :=
  ⟨C8_decimal_text_roundtrip (617/50) 1234 (by norm_num),
   C8_decimal_text_roundtrip (-(85/2)) (-4250) (by norm_num)⟩

end MicroGL
